import Mathlib

/-!
Verification development for the Joyus repository (Joy Streak Bot).

The definitions below are a shallow embedding of the Python sources:
  * src/database.py — curve calculator, user table operations, server stats
  * src/joy_streak_bot.py — the Joy sticker handler and the coin claim flow
  * src/admin.py — admin xp grant and user reset

Dates are modelled as integers (day numbers), the users table as an
association list keyed by the numeric id, and each SQL UPDATE as a pointwise
rewrite of the matching row.  Python ints are `Int` where a value can go
negative in the source, `Nat` where the source keeps it non-negative.
-/

namespace Joyus

/-! ## Curve Calculator (database.py) -/

/-- Per-step cost used by the loop body of `calculate_xp_for_level`:
60 when the step is at most 16, 90 when at most 36, 120 beyond. -/
def step_cost (lvl : Nat) : Nat :=
  if lvl ≤ 16 then 60 else if lvl ≤ 36 then 90 else 120

/-- `calculate_xp_for_level` from database.py: 0 for level 1, otherwise the sum
of `step_cost lvl` for `lvl` ranging over the Python range from 2 to the
target level inclusive. -/
def calculate_xp_for_level (level : Nat) : Nat :=
  if level = 1 then 0
  else ((List.range' 2 (level - 1)).map step_cost).sum

/-- Per-step cost as the specification words it: steps 2..16 cost 60 each,
steps 17..36 cost 90 each, steps beyond 36 cost 120 each.  Written from the
spec sentence, to be compared against `step_cost` / `calculate_xp_for_level`. -/
def spec_step_cost (l : Nat) : Nat :=
  if 2 ≤ l ∧ l ≤ 16 then 60 else if 17 ≤ l ∧ l ≤ 36 then 90 else 120

/-- One iteration layer of the while loop in `calculate_level_from_xp`,
with explicit fuel.  The loop body increments the level while
`calculate_xp_for_level (level + 1)` is still within `xp`. -/
def levelLoop : Nat → Nat → Int → Nat
  | 0, level, _ => level
  | fuel + 1, level, xp =>
    if (calculate_xp_for_level (level + 1) : Int) ≤ xp then levelLoop fuel (level + 1) xp
    else level

/-- `calculate_level_from_xp` from database.py: start at level 1 and climb while
the next level total requirement is still within `xp`.  The fuel `xp.toNat`
is enough for the loop to reach its genuine exit condition (proved below). -/
def calculate_level_from_xp (xp : Int) : Nat :=
  levelLoop xp.toNat 1 xp

/-- The `class_hp` dictionary of `calculate_max_hp`. -/
def class_hp (name : String) : Option (Nat × Nat) :=
  if name = "joy_keeper" then some (80, 8)
  else if name = "chud_warrior" then some (120, 12)
  else if name = "achievement_hunter" then some (90, 9)
  else if name = "pit_wizard" then some (70, 7)
  else if name = "gladiator_of_the_pit" then some (110, 11)
  else none

/-- Python truthiness test on the class column: falsy for NULL and for the
empty string. -/
def class_falsy (c : Option String) : Bool :=
  match c with
  | none => true
  | some s => s = ""

/-- `calculate_max_hp` from database.py. -/
def calculate_max_hp (level : Nat) (user_class : Option String) : Nat :=
  if class_falsy user_class || user_class == some "peasant" || decide (level < 3) then
    level * 10
  else
    match user_class with
    | some s =>
      match class_hp s with
      | some (base, per_level) => base + (level - 3) * per_level
      | none => level * 10
    | none => level * 10

/-! ## Data model (database.py schema and row operations) -/

/-- One row of the users table.  `hp` and `coins` are `Int` because the source
can drive them negative (`heal_user` with a negative amount, `give_coins`);
the other counters are kept non-negative by every write in the source. -/
structure User where
  level : Nat
  xp : Nat
  hp : Int
  max_hp : Nat
  coins : Int
  streak : Nat
  user_class : Option String
  last_joy_sent : Option Int
  last_coin_claim : Option Int
deriving Repr, DecidableEq

/-- The row inserted by `create_user` (together with the schema defaults for
the remaining columns). -/
def default_user : User :=
  { level := 1, xp := 0, hp := 100, max_hp := 100, coins := 0, streak := 0,
    user_class := none, last_joy_sent := none, last_coin_claim := none }

/-- The users table, keyed by discord id. -/
abbrev UserTable := List (Int × User)

/-- `get_user`: select the row whose discord id matches. -/
def get_user (tbl : UserTable) (id : Int) : Option User :=
  (tbl.find? (fun p => p.1 == id)).map Prod.snd

/-- `create_user`: insert a fresh row with the default values. -/
def create_user (tbl : UserTable) (id : Int) : UserTable × User :=
  ((id, default_user) :: tbl, default_user)

/-- `get_or_create_user`. -/
def get_or_create_user (tbl : UserTable) (id : Int) : UserTable × User :=
  match get_user tbl id with
  | some u => (tbl, u)
  | none => create_user tbl id

/-- An UPDATE of the row whose discord id matches: rewrite that row pointwise. -/
def modify_user (tbl : UserTable) (id : Int) (f : User → User) : UserTable :=
  tbl.map (fun p => if p.1 == id then (p.1, f p.2) else p)

/-- The result dictionary of `add_xp`. -/
structure AddXpResult where
  old_level : Nat
  new_level : Nat
  xp : Nat
  leveled_up : Bool
  max_hp : Nat
deriving Repr, DecidableEq

/-- `add_xp` from database.py: clamp the new total at 0, recompute the level,
recompute max HP only when the level changed, write xp/level/max_hp.  Returns
`none` on an absent user without touching the table. -/
def add_xp (tbl : UserTable) (id : Int) (amount : Int) : UserTable × Option AddXpResult :=
  match get_user tbl id with
  | none => (tbl, none)
  | some user =>
    let new_xp : Nat := (max 0 ((user.xp : Int) + amount)).toNat
    let new_level := calculate_level_from_xp (new_xp : Int)
    let new_max_hp := if new_level ≠ user.level then calculate_max_hp new_level user.user_class
                      else user.max_hp
    (modify_user tbl id (fun u => { u with xp := new_xp, level := new_level, max_hp := new_max_hp }),
     some { old_level := user.level, new_level := new_level, xp := new_xp,
            leveled_up := decide (user.level < new_level), max_hp := new_max_hp })

/-- The result dictionary of `damage_user`. -/
structure DamageResult where
  old_hp : Int
  new_hp : Int
  died : Bool
deriving Repr, DecidableEq

/-- `damage_user`: the new hp is the old hp minus the damage, floored at 0;
`none` on an absent user. -/
def damage_user (tbl : UserTable) (id : Int) (damage : Int) :
    UserTable × Option DamageResult :=
  match get_user tbl id with
  | none => (tbl, none)
  | some user =>
    let new_hp : Int := max 0 (user.hp - damage)
    (modify_user tbl id (fun u => { u with hp := new_hp }),
     some { old_hp := user.hp, new_hp := new_hp, died := new_hp == 0 })

/-- `heal_user`: the new hp is the old hp plus the amount, capped at max hp;
`none` on an absent user. -/
def heal_user (tbl : UserTable) (id : Int) (amount : Int) :
    UserTable × Option (Int × Int) :=
  match get_user tbl id with
  | none => (tbl, none)
  | some user =>
    let new_hp : Int := min (user.max_hp : Int) (user.hp + amount)
    (modify_user tbl id (fun u => { u with hp := new_hp }),
     some (user.hp, new_hp))

/-- `set_user_class`: recompute max HP for the current level under the new
class and fully heal; no-op on an absent user. -/
def set_user_class (tbl : UserTable) (id : Int) (class_name : String) : UserTable :=
  match get_user tbl id with
  | none => tbl
  | some user =>
    let new_max_hp := calculate_max_hp user.level (some class_name)
    modify_user tbl id
      (fun u => { u with user_class := some class_name, max_hp := new_max_hp,
                         hp := (new_max_hp : Int) })

/-- `reset_user` from database.py: delete the row whose discord id matches. -/
def reset_user (tbl : UserTable) (id : Int) : UserTable :=
  tbl.filter (fun p => ¬ (p.1 == id))

/-! ## Daily senders ledger and server stats -/

/-- The daily_senders table: (discord id, date) rows with that pair as
primary key. -/
abbrev DailySenders := List (Int × Int)

/-- `check_daily_sender`: membership test. -/
def check_daily_sender (ledger : DailySenders) (id : Int) (d : Int) : Bool :=
  ledger.contains (id, d)

/-- `add_daily_sender`: insert, doing nothing on a primary-key conflict. -/
def add_daily_sender (ledger : DailySenders) (id : Int) (d : Int) : DailySenders :=
  if ledger.contains (id, d) then ledger else (id, d) :: ledger

/-- The server_stats singleton row (core columns). -/
structure ServerStats where
  server_streak : Nat
  last_joy_sent : Option Int
deriving Repr, DecidableEq

/-- The server-streak update block at the end of `handle_joy_sticker`
(joy_streak_bot.py).  The returned flag records whether the community
break notification was sent. -/
def server_streak_update (stats : ServerStats) (today : Int) : ServerStats × Bool :=
  if stats.last_joy_sent == some today then (stats, false)
  else if stats.last_joy_sent == some (today - 1) then
    ({ server_streak := stats.server_streak + 1, last_joy_sent := some today }, false)
  else
    ({ server_streak := 1, last_joy_sent := some today }, decide (stats.server_streak > 0))

/-! ## The Joy sticker handler (joy_streak_bot.py, handle_joy_sticker) -/

/-- Full persistent state touched by the handler. -/
structure BotState where
  users : UserTable
  daily_senders : DailySenders
  stats : ServerStats
deriving Repr, DecidableEq

/-- What the handler decided, as reflected in its reactions and messages. -/
structure JoyOutcome where
  double_submission : Bool
  old_streak : Nat
  missed_yesterday : Bool
  new_streak : Nat
  old_level : Nat
  new_level : Nat
  is_milestone : Bool
  server_break : Bool
deriving Repr, DecidableEq

/-- `handle_joy_sticker`, translated statement by statement.  `penalty` is the
configured wrong_channel_xp_loss (also used as the missed-day penalty) and
`reward` is the configured joy_base_xp.  Each UPDATE call reads the stored row
at that moment, while the in-memory `user` record fetched at the top is NOT
refreshed — which is why the final streak write stores `user.streak + 1`. -/
def handle_joy_sticker (penalty reward : Nat) (st : BotState) (id : Int) (today : Int) :
    BotState × JoyOutcome :=
  let fetched := get_or_create_user st.users id
  let users0 := fetched.1
  let user := fetched.2
  if check_daily_sender st.daily_senders id today then
    -- double submission: break the streak and return
    let users1 := modify_user users0 id (fun u => { u with streak := 0 })
    ({ st with users := users1 },
     { double_submission := true, old_streak := user.streak, missed_yesterday := false,
       new_streak := 0, old_level := user.level, new_level := user.level,
       is_milestone := false, server_break := false })
  else
    let senders1 := add_daily_sender st.daily_senders id today
    let yesterday := today - 1
    let missed : Bool :=
      match user.last_joy_sent with
      | some last => !(last == yesterday) && !(last == today)
      | none => false
    -- gap break: reset the streak and apply the xp penalty
    let users1 := if missed then modify_user users0 id (fun u => { u with streak := 0 }) else users0
    let users2 := if missed then (add_xp users1 id (-(penalty : Int))).1 else users1
    -- update last sent date
    let users3 := modify_user users2 id (fun u => { u with last_joy_sent := some today })
    -- increment streak from the stale in-memory record
    let new_streak := user.streak + 1
    let users4 := modify_user users3 id (fun u => { u with streak := new_streak })
    let is_milestone : Bool := [7, 30, 100, 365].contains new_streak
    -- grant the xp reward
    let step := add_xp users4 id (reward : Int)
    let users5 := step.1
    let new_level := match step.2 with
                     | some r => r.new_level
                     | none => user.level
    -- update the server streak
    let sstep := server_streak_update st.stats today
    ({ users := users5, daily_senders := senders1, stats := sstep.1 },
     { double_submission := false, old_streak := user.streak, missed_yesterday := missed,
       new_streak := new_streak, old_level := user.level, new_level := new_level,
       is_milestone := is_milestone, server_break := sstep.2 })

/-! ## Command flows (joy_streak_bot.py claim, admin.py give_xp) -/

/-- The claim command flow: get-or-create, gate on `last_coin_claim`, grant
`level * daily_coins_per_level` coins.  Returns the coins earned, or `none`
when already claimed today. -/
def claim_coins (rate : Nat) (tbl : UserTable) (id : Int) (today : Int) :
    UserTable × Option Int :=
  let fetched := get_or_create_user tbl id
  let tbl1 := fetched.1
  let user := fetched.2
  if user.last_coin_claim == some today then (tbl1, none)
  else
    let coins_earned : Int := (user.level : Int) * (rate : Int)
    let tbl2 := modify_user tbl1 id
      (fun u => { u with coins := user.coins + coins_earned, last_coin_claim := some today })
    (tbl2, some coins_earned)

/-- The give_xp admin command flow: get-or-create, then `add_xp`. -/
def give_xp (tbl : UserTable) (id : Int) (amount : Int) :
    UserTable × Option AddXpResult :=
  let fetched := get_or_create_user tbl id
  add_xp fetched.1 id amount

/-! ## Concrete fixtures used by counterexamples and witnesses -/

/-- A user whose last qualifying day (day 7) lies three days before day 10. -/
def gap_user : User :=
  { level := 1, xp := 30, hp := 100, max_hp := 100, coins := 0, streak := 12,
    user_class := none, last_joy_sent := some 7, last_coin_claim := none }

/-- State for the gap-break scenario: streak 12, last day 7, event on day 10. -/
def gap_state : BotState :=
  { users := [(1, gap_user)], daily_senders := [],
    stats := { server_streak := 4, last_joy_sent := some 9 } }

/-- State for the double-submission scenario: a ledger row for (1, day 10)
already exists. -/
def double_state : BotState :=
  { users := [(1, { gap_user with streak := 5 })], daily_senders := [(1, 10)],
    stats := { server_streak := 4, last_joy_sent := some 9 } }

/-- State for the stale-event scenario: recorded last qualifying day 12,
event replayed on day 10. -/
def stale_state : BotState :=
  { users := [(1, { gap_user with streak := 5, last_joy_sent := some 12 })],
    daily_senders := [],
    stats := { server_streak := 4, last_joy_sent := some 9 } }

/-- A level-2 user about to cross level 3: xp 115, hp and max hp still 100. -/
def levelup_user : User :=
  { level := 2, xp := 115, hp := 100, max_hp := 100, coins := 0, streak := 0,
    user_class := none, last_joy_sent := none, last_coin_claim := none }

/-- An entirely empty bot state (no users, no ledger rows, zeroed stats). -/
def empty_state : BotState :=
  { users := [], daily_senders := [],
    stats := { server_streak := 0, last_joy_sent := none } }

/-! ## Curve lemmas -/

lemma step_cost_ge (lvl : Nat) : 60 ≤ step_cost lvl := by
  unfold step_cost
  split <;> [omega; skip]
  split <;> omega

lemma calculate_xp_for_level_one : calculate_xp_for_level 1 = 0 := rfl

/-- Unfolding one loop iteration of `calculate_xp_for_level`:
the total for `level + 1` is the total for `level` plus the cost of the last step. -/
lemma calculate_xp_for_level_succ (level : Nat) (h : 1 ≤ level) :
    calculate_xp_for_level (level + 1) = calculate_xp_for_level level + step_cost (level + 1) := by
  rcases Nat.eq_or_lt_of_le h with h1 | h1
  · subst_eqs
    simp [calculate_xp_for_level, List.range']
  · have h2 : level ≠ 1 := by omega
    have h3 : level + 1 ≠ 1 := by omega
    have h4 : level - 1 + 1 = level := by omega
    have h5 : 2 + (level - 1) = level + 1 := by omega
    simp only [calculate_xp_for_level, if_neg h2, if_neg h3, Nat.add_sub_cancel]
    rw [← h4, List.range'_concat, List.map_append, List.sum_append, h4]
    simp [h5]

/-- Lower bound: the total requirement grows at least linearly (60 per step). -/
lemma calculate_xp_for_level_lower (level : Nat) :
    60 * (level - 1) ≤ calculate_xp_for_level level := by
  induction level with
  | zero => simp
  | succ n ih =>
    rcases Nat.eq_zero_or_pos n with h | h
    · subst h; simp [calculate_xp_for_level]
    · rw [calculate_xp_for_level_succ n h]
      have := step_cost_ge (n + 1)
      omega

lemma calculate_xp_for_level_lt_succ (level : Nat) (h : 1 ≤ level) :
    calculate_xp_for_level level < calculate_xp_for_level (level + 1) := by
  rw [calculate_xp_for_level_succ level h]
  have := step_cost_ge (level + 1)
  omega

/-- Strict monotonicity of the curve on levels ≥ 1. -/
lemma calculate_xp_for_level_strict_mono {m n : Nat} (hm : 1 ≤ m) (hmn : m < n) :
    calculate_xp_for_level m < calculate_xp_for_level n := by
  induction n with
  | zero => omega
  | succ k ih =>
    rcases Nat.lt_or_ge m k with h | h
    · exact lt_trans (ih h) (calculate_xp_for_level_lt_succ k (by omega))
    · have : m = k := by omega
      subst this
      exact calculate_xp_for_level_lt_succ m hm

lemma calculate_xp_for_level_mono {m n : Nat} (hm : 1 ≤ m) (hmn : m ≤ n) :
    calculate_xp_for_level m ≤ calculate_xp_for_level n := by
  rcases Nat.eq_or_lt_of_le hmn with h | h
  · subst h; exact le_refl _
  · exact le_of_lt (calculate_xp_for_level_strict_mono hm h)

/-! ## Loop lemmas for `calculate_level_from_xp` -/

/-- The loop invariant is preserved down to the returned level. -/
lemma levelLoop_lower (fuel : Nat) :
    ∀ (level : Nat) (xp : Int), (calculate_xp_for_level level : Int) ≤ xp →
      (calculate_xp_for_level (levelLoop fuel level xp) : Int) ≤ xp := by
  induction fuel with
  | zero => intro level xp h; exact h
  | succ n ih =>
    intro level xp h
    by_cases hc : (calculate_xp_for_level (level + 1) : Int) ≤ xp
    · simpa [levelLoop, hc] using ih (level + 1) xp hc
    · simpa [levelLoop, hc] using h

/-- With enough fuel the loop reaches its genuine exit condition: at the returned
level the while guard fails. -/
lemma levelLoop_exit (fuel : Nat) :
    ∀ (level : Nat) (xp : Int), xp < (calculate_xp_for_level (level + fuel + 1) : Int) →
      xp < (calculate_xp_for_level (levelLoop fuel level xp + 1) : Int) ∧
        level ≤ levelLoop fuel level xp := by
  induction fuel with
  | zero =>
    intro level xp h
    exact ⟨h, le_refl _⟩
  | succ n ih =>
    intro level xp h
    by_cases hc : (calculate_xp_for_level (level + 1) : Int) ≤ xp
    · have h' : xp < (calculate_xp_for_level (level + 1 + n + 1) : Int) := by
        have e : level + 1 + n + 1 = level + (n + 1) + 1 := by omega
        rw [e]; exact h
      have := ih (level + 1) xp h'
      simp only [levelLoop, hc, if_pos]
      exact ⟨this.1, by omega⟩
    · simp only [levelLoop, hc, if_neg, ite_false]
      exact ⟨by omega, le_refl _⟩

/-- Adding fuel beyond the exit point does not change the result: the loop
terminates. -/
lemma levelLoop_fuel_irrel (fuel : Nat) :
    ∀ (extra level : Nat) (xp : Int), xp < (calculate_xp_for_level (level + fuel + 1) : Int) →
      levelLoop (fuel + extra) level xp = levelLoop fuel level xp := by
  induction fuel with
  | zero =>
    intro extra level xp h
    have hc : ¬ ((calculate_xp_for_level (level + 1) : Int) ≤ xp) := by
      simp only [Nat.add_zero] at h; omega
    cases extra with
    | zero => rfl
    | succ e => simp [levelLoop, hc]
  | succ n ih =>
    intro extra level xp h
    have e : n + 1 + extra = (n + extra) + 1 := by omega
    rw [e]
    by_cases hc : (calculate_xp_for_level (level + 1) : Int) ≤ xp
    · have h' : xp < (calculate_xp_for_level (level + 1 + n + 1) : Int) := by
        have e2 : level + 1 + n + 1 = level + (n + 1) + 1 := by omega
        rw [e2]; exact h
      simp only [levelLoop, hc, if_pos]
      exact ih extra (level + 1) xp h'
    · simp [levelLoop, hc]

/-- The fuel `xp.toNat` given by `calculate_level_from_xp` is always sufficient. -/
lemma fuel_enough (xp : Int) : xp < (calculate_xp_for_level (1 + xp.toNat + 1) : Int) := by
  have h1 := calculate_xp_for_level_lower (xp.toNat + 2)
  have h2 : xp ≤ (xp.toNat : Int) := Int.self_le_toNat xp
  have h3 : 1 + xp.toNat + 1 = xp.toNat + 2 := by omega
  rw [h3]
  have h4 : (xp.toNat : Int) < ((60 * (xp.toNat + 2 - 1) : Nat) : Int) := by push_cast; omega
  have h5 : ((60 * (xp.toNat + 2 - 1) : Nat) : Int) ≤ (calculate_xp_for_level (xp.toNat + 2) : Int) := by
    exact_mod_cast h1
  omega

lemma calculate_level_from_xp_pos (xp : Int) : 1 ≤ calculate_level_from_xp xp :=
  (levelLoop_exit xp.toNat 1 xp (fuel_enough xp)).2

/-- At the returned level the while guard fails: the next level is out of reach. -/
lemma calculate_level_from_xp_exit (xp : Int) :
    xp < (calculate_xp_for_level (calculate_level_from_xp xp + 1) : Int) :=
  (levelLoop_exit xp.toNat 1 xp (fuel_enough xp)).1

/-- For non-negative xp the returned level is reached: its requirement is within xp. -/
lemma calculate_level_from_xp_le (xp : Int) (h : 0 ≤ xp) :
    (calculate_xp_for_level (calculate_level_from_xp xp) : Int) ≤ xp := by
  apply levelLoop_lower
  simpa [calculate_xp_for_level_one] using h

/-- A level bracketing a given xp between its requirement and the next one is
unique among levels ≥ 1. -/
lemma level_unique {x : Int} {L M : Nat} (hL1 : 1 ≤ L) (hM1 : 1 ≤ M)
    (hL : (calculate_xp_for_level L : Int) ≤ x) (hL' : x < (calculate_xp_for_level (L + 1) : Int))
    (hM : (calculate_xp_for_level M : Int) ≤ x) (hM' : x < (calculate_xp_for_level (M + 1) : Int)) :
    L = M := by
  rcases lt_trichotomy L M with h | h | h
  · exfalso
    have h6 : calculate_xp_for_level (L + 1) ≤ calculate_xp_for_level M :=
      calculate_xp_for_level_mono (by omega) (by omega)
    have h7 : ((calculate_xp_for_level (L + 1) : Nat) : Int) ≤ (calculate_xp_for_level M : Int) := by
      exact_mod_cast h6
    omega
  · exact h
  · exfalso
    have h6 : calculate_xp_for_level (M + 1) ≤ calculate_xp_for_level L :=
      calculate_xp_for_level_mono (by omega) (by omega)
    have h7 : ((calculate_xp_for_level (M + 1) : Nat) : Int) ≤ (calculate_xp_for_level L : Int) := by
      exact_mod_cast h6
    omega

/-- Characterisation: if `L` brackets `x`, the loop returns `L`. -/
lemma calculate_level_from_xp_eq (x : Int) (L : Nat) (h1 : 1 ≤ L)
    (h2 : (calculate_xp_for_level L : Int) ≤ x)
    (h3 : x < (calculate_xp_for_level (L + 1) : Int)) :
    calculate_level_from_xp x = L := by
  have h0 : 0 ≤ x := le_trans (by positivity) h2
  exact level_unique (calculate_level_from_xp_pos x) h1
    (calculate_level_from_xp_le x h0) (calculate_level_from_xp_exit x) h2 h3

/-! ## Table lemmas -/

lemma get_user_modify_self (tbl : UserTable) (id : Int) (f : User → User) :
    get_user (modify_user tbl id f) id = (get_user tbl id).map f := by
  induction tbl with
  | nil => rfl
  | cons p rest ih =>
    by_cases h : p.1 == id
    · simp [modify_user, get_user, List.find?, h]
    · simp only [modify_user, List.map_cons, if_neg h]
      simp only [get_user, List.find?, h] at ih ⊢
      simpa [modify_user] using ih

lemma get_or_create_of_some {tbl : UserTable} {id : Int} {u : User}
    (h : get_user tbl id = some u) : get_or_create_user tbl id = (tbl, u) := by
  simp [get_or_create_user, h]

lemma get_or_create_of_none {tbl : UserTable} {id : Int}
    (h : get_user tbl id = none) :
    get_or_create_user tbl id = ((id, default_user) :: tbl, default_user) := by
  simp [get_or_create_user, h, create_user]

lemma get_user_create_self (tbl : UserTable) (id : Int) :
    get_user ((id, default_user) :: tbl) id = some default_user := by
  simp [get_user, List.find?]

lemma get_or_create_get (tbl : UserTable) (id : Int) :
    get_user (get_or_create_user tbl id).1 id = some (get_or_create_user tbl id).2 := by
  cases h : get_user tbl id with
  | some u => simp [get_or_create_user, h]
  | none => simp [get_or_create_user, h, create_user, get_user_create_self]

lemma get_user_modify_isSome (tbl : UserTable) (id : Int) (f : User → User) :
    (get_user (modify_user tbl id f) id).isSome = (get_user tbl id).isSome := by
  rw [get_user_modify_self]
  cases get_user tbl id <;> rfl

lemma get_user_add_xp_isSome (tbl : UserTable) (id : Int) (amount : Int) :
    (get_user (add_xp tbl id amount).1 id).isSome = (get_user tbl id).isSome := by
  cases h : get_user tbl id with
  | none => simp [add_xp, h]
  | some u => simp [add_xp, h, get_user_modify_self]

/-- The equal-step-cost bridge between the loop body and the spec wording. -/
lemma step_cost_eq_spec (l : Nat) (h : 2 ≤ l) : step_cost l = spec_step_cost l := by
  unfold step_cost spec_step_cost
  split_ifs <;> omega

/-! ## Handler lemmas -/

/-- The server stats component of the handler result depends only on the
ledger check and the server-streak update. -/
lemma handle_joy_stats (penalty reward : Nat) (st : BotState) (id : Int) (today : Int) :
    (handle_joy_sticker penalty reward st id today).1.stats =
      if check_daily_sender st.daily_senders id today then st.stats
      else (server_streak_update st.stats today).1 := by
  unfold handle_joy_sticker
  by_cases h : check_daily_sender st.daily_senders id today <;> simp [h]

/-- The ledger component of the handler result. -/
lemma handle_joy_senders (penalty reward : Nat) (st : BotState) (id : Int) (today : Int) :
    (handle_joy_sticker penalty reward st id today).1.daily_senders =
      if check_daily_sender st.daily_senders id today then st.daily_senders
      else add_daily_sender st.daily_senders id today := by
  unfold handle_joy_sticker
  by_cases h : check_daily_sender st.daily_senders id today <;> simp [h]

/-- Double-submission branch of the handler: streak zeroed, nothing else
touched, no ledger insert, no server update. -/
lemma handle_joy_double
    (penalty reward : Nat) (st : BotState) (id : Int) (today : Int) (u : User)
    (hget : get_user st.users id = some u)
    (hsent : check_daily_sender st.daily_senders id today = true) :
    get_user (handle_joy_sticker penalty reward st id today).1.users id
      = some { u with streak := 0 } ∧
    (handle_joy_sticker penalty reward st id today).1.daily_senders = st.daily_senders ∧
    (handle_joy_sticker penalty reward st id today).1.stats = st.stats ∧
    (handle_joy_sticker penalty reward st id today).2 =
      { double_submission := true, old_streak := u.streak, missed_yesterday := false,
        new_streak := 0, old_level := u.level, new_level := u.level,
        is_milestone := false, server_break := false } := by
  simp [handle_joy_sticker, get_or_create_of_some hget, hsent, get_user_modify_self, hget]

/-- Accepted-event branch of the handler, for an existing user: the final row,
ledger, stats and outcome, spelled out.  `m` is the gap-break flag, `xp1`,
`lvl1`, `mhp1` the row after the optional penalty, `xp2`, `lvl2`, `mhp2` the
row after the reward. -/
lemma handle_joy_no_double
    (penalty reward : Nat) (st : BotState) (id : Int) (today : Int) (u : User)
    (m : Bool) (xp1 lvl1 mhp1 xp2 lvl2 mhp2 : Nat)
    (hget : get_user st.users id = some u)
    (hsent : check_daily_sender st.daily_senders id today = false)
    (hm : (match u.last_joy_sent with
           | some last => !(last == today - 1) && !(last == today)
           | none => false) = m)
    (hxp1 : xp1 = if m then (max 0 ((u.xp : Int) + -(penalty : Int))).toNat else u.xp)
    (hlvl1 : lvl1 = if m then calculate_level_from_xp (xp1 : Int) else u.level)
    (hmhp1 : mhp1 = if m then
        (if calculate_level_from_xp (xp1 : Int) ≠ u.level then
           calculate_max_hp (calculate_level_from_xp (xp1 : Int)) u.user_class
         else u.max_hp)
      else u.max_hp)
    (hxp2 : xp2 = (max 0 ((xp1 : Int) + (reward : Int))).toNat)
    (hlvl2 : lvl2 = calculate_level_from_xp (xp2 : Int))
    (hmhp2 : mhp2 = if lvl2 ≠ lvl1 then calculate_max_hp lvl2 u.user_class else mhp1) :
    get_user (handle_joy_sticker penalty reward st id today).1.users id =
      some { u with xp := xp2, level := lvl2, max_hp := mhp2,
                    last_joy_sent := some today, streak := u.streak + 1 } ∧
    (handle_joy_sticker penalty reward st id today).1.daily_senders
      = add_daily_sender st.daily_senders id today ∧
    (handle_joy_sticker penalty reward st id today).1.stats
      = (server_streak_update st.stats today).1 ∧
    (handle_joy_sticker penalty reward st id today).2 =
      { double_submission := false, old_streak := u.streak, missed_yesterday := m,
        new_streak := u.streak + 1, old_level := u.level, new_level := lvl2,
        is_milestone := [7, 30, 100, 365].contains (u.streak + 1),
        server_break := (server_streak_update st.stats today).2 } := by
  cases m with
  | false =>
    subst hxp1 hlvl1 hmhp1 hxp2 hlvl2 hmhp2
    simp [handle_joy_sticker, get_or_create_of_some hget, hsent, hm,
      add_xp, get_user_modify_self, hget]
  | true =>
    subst hxp1 hlvl1 hmhp1 hxp2 hlvl2 hmhp2
    simp [handle_joy_sticker, get_or_create_of_some hget, hsent, hm,
      add_xp, get_user_modify_self, hget]

/-- Running the handler for an absent user is the same as first inserting the
default row and then running it: the get-or-create happens before anything
else. -/
lemma handle_joy_absent (penalty reward : Nat) (st : BotState) (id : Int) (today : Int)
    (hst : get_user st.users id = none) :
    handle_joy_sticker penalty reward st id today
      = handle_joy_sticker penalty reward
          { st with users := (id, default_user) :: st.users } id today := by
  unfold handle_joy_sticker
  rw [get_or_create_of_none hst]
  rw [show get_or_create_user ({ st with users := (id, default_user) :: st.users } : BotState).users id
        = ((id, default_user) :: st.users, default_user) from
      get_or_create_of_some (get_user_create_self st.users id)]

/-! ## Claim theorems -/

/-- Claim C6: `calculate_xp_for_level` returns 0 for level 1 and, for every
target level L ≥ 2, the sum of the per-step costs over steps 2 up to L, where
steps 2..16 cost 60 each, steps 17..36 cost 90 each, and steps beyond 36 cost
120 each. -/
theorem claim_C6_xp_curve :
    calculate_xp_for_level 1 = 0 ∧
    ∀ L : Nat, 2 ≤ L → calculate_xp_for_level L = ∑ l in Finset.Icc 2 L, spec_step_cost l := by
  refine ⟨rfl, ?_⟩
  intro L hL
  induction L, hL using Nat.le_induction with
  | base => decide
  | succ n hn ih =>
    rw [calculate_xp_for_level_succ n (by omega), ih,
      Finset.sum_Icc_succ_top (by omega : 2 ≤ n + 1),
      step_cost_eq_spec (n + 1) (by omega)]

/-- Witness for C6 at target level 20. -/
theorem claim_C6_xp_curve_witness :
    2 ≤ 20 ∧ calculate_xp_for_level 20 = ∑ l in Finset.Icc 2 20, spec_step_cost l :=
  ⟨by decide, claim_C6_xp_curve.2 20 (by decide)⟩

/-- Claim C7: for every level L ≥ 1 the curve is strictly increasing and
`calculate_level_from_xp` inverts it exactly at the boundary; one xp below the
boundary lands on the previous level. -/
theorem claim_C7_curve_round_trip (L : Nat) (h : 1 ≤ L) :
    calculate_xp_for_level L < calculate_xp_for_level (L + 1) ∧
    calculate_level_from_xp (calculate_xp_for_level L : Int) = L ∧
    (2 ≤ L → calculate_level_from_xp ((calculate_xp_for_level L : Int) - 1) = L - 1) := by
  refine ⟨calculate_xp_for_level_lt_succ L h, ?_, ?_⟩
  · apply calculate_level_from_xp_eq _ L h (le_refl _)
    exact_mod_cast calculate_xp_for_level_lt_succ L h
  · intro h2
    apply calculate_level_from_xp_eq _ (L - 1) (by omega)
    · have e : L - 1 + 1 = L := by omega
      have hs := calculate_xp_for_level_succ (L - 1) (by omega)
      rw [e] at hs
      have hc := step_cost_ge L
      have h60 : calculate_xp_for_level (L - 1) + 60 ≤ calculate_xp_for_level L := by omega
      omega
    · have e : L - 1 + 1 = L := by omega
      rw [e]
      omega

/-- Witness for C7 at level 2. -/
theorem claim_C7_curve_round_trip_witness :
    1 ≤ 2 ∧
    (calculate_xp_for_level 2 < calculate_xp_for_level 3 ∧
     calculate_level_from_xp (calculate_xp_for_level 2 : Int) = 2 ∧
     (2 ≤ 2 → calculate_level_from_xp ((calculate_xp_for_level 2 : Int) - 1) = 1)) :=
  ⟨by decide, claim_C7_curve_round_trip 2 (by decide)⟩

/-- Claim C10: for every integer xp input, including negative values, the level
computation terminates — the result does not depend on any extra fuel beyond
`xp.toNat` — with a level of at least 1, and at the returned level the while
guard genuinely fails. -/
theorem claim_C10_level_loop_terminates (xp : Int) (extra : Nat) :
    1 ≤ calculate_level_from_xp xp ∧
    xp < (calculate_xp_for_level (calculate_level_from_xp xp + 1) : Int) ∧
    levelLoop (xp.toNat + extra) 1 xp = calculate_level_from_xp xp :=
  ⟨calculate_level_from_xp_pos xp, calculate_level_from_xp_exit xp,
   levelLoop_fuel_irrel xp.toNat extra 1 xp (fuel_enough xp)⟩

/-- Claim C8: max HP is level × 10 below level 3, with no class, or with the
default peasant class; unknown class identifiers fall back to level × 10;
otherwise it is base + (level − 3) × per_level for the configured pair, and in
particular level 5 with the (80, 8) class gives 96. -/
theorem claim_C8_max_hp (level : Nat) (cls : Option String) :
    ((level < 3 ∨ cls = none ∨ cls = some "peasant") →
       calculate_max_hp level cls = level * 10) ∧
    (∀ s, cls = some s → class_hp s = none → calculate_max_hp level cls = level * 10) ∧
    (∀ s b p, 3 ≤ level → cls = some s → class_hp s = some (b, p) →
       calculate_max_hp level cls = b + (level - 3) * p) ∧
    calculate_max_hp 5 (some "joy_keeper") = 96 := by
  refine ⟨?_, ?_, ?_, by decide⟩
  · rintro (h | h | h)
    · simp [calculate_max_hp, h]
    · subst h; simp [calculate_max_hp, class_falsy]
    · subst h; simp [calculate_max_hp, class_falsy]
  · intro s hcls hnone
    subst hcls
    unfold calculate_max_hp
    split
    · rfl
    · simp [hnone]
  · intro s b p h3 hcls hsome
    subst hcls
    have hnl : ¬ (level < 3) := by omega
    unfold class_hp at hsome
    split_ifs at hsome with h1 h2 h3' h4 h5
    · subst h1
      simp only [Option.some.injEq, Prod.mk.injEq] at hsome
      obtain ⟨rfl, rfl⟩ := hsome
      simp [calculate_max_hp, class_falsy, class_hp, hnl]
    · subst h2
      simp only [Option.some.injEq, Prod.mk.injEq] at hsome
      obtain ⟨rfl, rfl⟩ := hsome
      simp [calculate_max_hp, class_falsy, class_hp, hnl]
    · subst h3'
      simp only [Option.some.injEq, Prod.mk.injEq] at hsome
      obtain ⟨rfl, rfl⟩ := hsome
      simp [calculate_max_hp, class_falsy, class_hp, hnl]
    · subst h4
      simp only [Option.some.injEq, Prod.mk.injEq] at hsome
      obtain ⟨rfl, rfl⟩ := hsome
      simp [calculate_max_hp, class_falsy, class_hp, hnl]
    · subst h5
      simp only [Option.some.injEq, Prod.mk.injEq] at hsome
      obtain ⟨rfl, rfl⟩ := hsome
      simp [calculate_max_hp, class_falsy, class_hp, hnl]

/-- Witness for C8: a level-2 classed user, an unknown class at level 7, and
the concrete (80, 8) example at level 5. -/
theorem claim_C8_max_hp_witness :
    calculate_max_hp 2 (some "chud_warrior") = 20 ∧
    calculate_max_hp 7 (some "mystery") = 70 ∧
    calculate_max_hp 5 (some "joy_keeper") = 96 :=
  ⟨(claim_C8_max_hp 2 (some "chud_warrior")).1 (Or.inl (by decide)),
   (claim_C8_max_hp 7 (some "mystery")).2.1 "mystery" rfl rfl,
   (claim_C8_max_hp 5 (some "joy_keeper")).2.2.2⟩

/-- Claim C1 (code bug): on the gap-break path (last day 7, streak 12, event on
day 10, penalty 25, reward 50) the handler flags the break and applies the
penalty and reward to xp (30 − 25 + 50 = 55), but the final stored streak is
13 — the stale in-memory streak plus one — not the fresh-start value 1 that
both the spec and the handler message about starting fresh state. -/
theorem claim_C1_gap_break_bug :
    (handle_joy_sticker 25 50 gap_state 1 10).2.missed_yesterday = true ∧
    (get_user (handle_joy_sticker 25 50 gap_state 1 10).1.users 1).map User.xp = some 55 ∧
    (get_user (handle_joy_sticker 25 50 gap_state 1 10).1.users 1).map User.streak = some 13 ∧
    (get_user (handle_joy_sticker 25 50 gap_state 1 10).1.users 1).map User.streak ≠ some 1 := by
  decide

/-- Counterexample for C2: a freshly created user has max hp 100 while the HP
formula gives 10 at level 1; and `add_xp` does not reclamp hp — a level-2 user
with hp 100 crossing to level 3 (classless) keeps hp 100 above the new
max hp 30. -/
theorem claim_C2_counterexample :
    default_user.max_hp = 100 ∧
    calculate_max_hp default_user.level default_user.user_class = 10 ∧
    default_user.max_hp ≠ calculate_max_hp default_user.level default_user.user_class ∧
    (get_user (add_xp [(1, levelup_user)] 1 10).1 1).map User.hp = some 100 ∧
    (get_user (add_xp [(1, levelup_user)] 1 10).1 1).map User.max_hp = some 30 := by
  decide

/-- Claim C2 (amended): user creation sets hp = max hp = 100 regardless of the
HP formula; `add_xp` leaves hp untouched (no reclamping) and recomputes max hp
to exactly the formula value when — and only when — the level changes; class
assignment restores the invariant, setting max hp to the formula value and
hp equal to it. -/
theorem claim_C2_amended (tbl : UserTable) (id : Int) (u : User) (amount : Int)
    (cls : String) :
    (get_user tbl id = none →
       get_user (get_or_create_user tbl id).1 id = some default_user ∧
       default_user.hp = 100 ∧ default_user.max_hp = 100 ∧ default_user.level = 1) ∧
    (get_user tbl id = some u →
       (get_user (add_xp tbl id amount).1 id).map User.hp = some u.hp ∧
       (get_user (add_xp tbl id amount).1 id).map User.max_hp =
         some (if calculate_level_from_xp (((max 0 ((u.xp : Int) + amount)).toNat : Nat) : Int)
                  ≠ u.level
               then calculate_max_hp
                 (calculate_level_from_xp
                   (((max 0 ((u.xp : Int) + amount)).toNat : Nat) : Int)) u.user_class
               else u.max_hp)) ∧
    (get_user tbl id = some u →
       (get_user (set_user_class tbl id cls) id).map User.max_hp
         = some (calculate_max_hp u.level (some cls)) ∧
       (get_user (set_user_class tbl id cls) id).map User.hp
         = some ((calculate_max_hp u.level (some cls) : Int))) := by
  refine ⟨?_, ?_, ?_⟩
  · intro h
    rw [get_or_create_of_none h]
    exact ⟨get_user_create_self tbl id, rfl, rfl, rfl⟩
  · intro h
    constructor
    · simp [add_xp, h, get_user_modify_self]
    · simp [add_xp, h, get_user_modify_self]
  · intro h
    simp [set_user_class, h, get_user_modify_self]

/-- Witness for C2 amended: the level-up crossing at xp 115 + 10. -/
theorem claim_C2_amended_witness :
    (get_user (add_xp [(1, levelup_user)] 1 10).1 1).map User.hp = some levelup_user.hp ∧
    (get_user (set_user_class [(1, levelup_user)] 1 "joy_keeper") 1).map User.max_hp
      = some (calculate_max_hp levelup_user.level (some "joy_keeper")) :=
  ⟨((claim_C2_amended [(1, levelup_user)] 1 levelup_user 10 "joy_keeper").2.1 (by decide)).1,
   ((claim_C2_amended [(1, levelup_user)] 1 levelup_user 10 "joy_keeper").2.2 (by decide)).1⟩

/-- Counterexample for C3: an event on day 10 replayed while the recorded last
qualifying day is day 12 is NOT rejected and does change state — the streak
goes from 5 to 6, xp from 30 to 55, and the last qualifying day moves back to
day 10; the break flag is raised instead of any stale-event signal. -/
theorem claim_C3_counterexample :
    (handle_joy_sticker 25 50 stale_state 1 10).1 ≠ stale_state ∧
    (get_user (handle_joy_sticker 25 50 stale_state 1 10).1.users 1).map User.streak = some 6 ∧
    (get_user (handle_joy_sticker 25 50 stale_state 1 10).1.users 1).map User.xp = some 55 ∧
    (get_user (handle_joy_sticker 25 50 stale_state 1 10).1.users 1).map User.last_joy_sent
      = some (some 10) ∧
    (handle_joy_sticker 25 50 stale_state 1 10).2.missed_yesterday = true := by
  decide

/-- Claim C3 (amended): an event whose date precedes the recorded last
qualifying day is not rejected — the code has no stale-event signal; the event
is processed as a gap break: the break is flagged, the penalty and then the
reward are applied to xp, the streak is re-incremented from its pre-event
value, and the last qualifying day is overwritten with the earlier event
date. -/
theorem claim_C3_amended (penalty reward : Nat) (st : BotState) (id : Int)
    (today d : Int) (u : User)
    (hget : get_user st.users id = some u)
    (hsent : check_daily_sender st.daily_senders id today = false)
    (hlast : u.last_joy_sent = some d) (hstale : today < d) :
    (handle_joy_sticker penalty reward st id today).2.missed_yesterday = true ∧
    (handle_joy_sticker penalty reward st id today).2.double_submission = false ∧
    (get_user (handle_joy_sticker penalty reward st id today).1.users id).map User.streak
      = some (u.streak + 1) ∧
    (get_user (handle_joy_sticker penalty reward st id today).1.users id).map User.last_joy_sent
      = some (some today) ∧
    (get_user (handle_joy_sticker penalty reward st id today).1.users id).map User.xp
      = some ((max 0 (((max 0 ((u.xp : Int) + -(penalty : Int))).toNat : Int)
          + (reward : Int))).toNat) := by
  have hm : (match u.last_joy_sent with
             | some last => !(last == today - 1) && !(last == today)
             | none => false) = true := by
    rw [hlast]
    have h1 : d ≠ today - 1 := by omega
    have h2 : d ≠ today := by omega
    simp [h1, h2]
  obtain ⟨hu, hsen, hst, hout⟩ :=
    handle_joy_no_double penalty reward st id today u true
      ((max 0 ((u.xp : Int) + -(penalty : Int))).toNat)
      (calculate_level_from_xp (((max 0 ((u.xp : Int) + -(penalty : Int))).toNat : Nat) : Int))
      (if calculate_level_from_xp (((max 0 ((u.xp : Int) + -(penalty : Int))).toNat : Nat) : Int)
            ≠ u.level then
         calculate_max_hp
           (calculate_level_from_xp
             (((max 0 ((u.xp : Int) + -(penalty : Int))).toNat : Nat) : Int)) u.user_class
       else u.max_hp)
      ((max 0 ((((max 0 ((u.xp : Int) + -(penalty : Int))).toNat : Nat) : Int)
          + (reward : Int))).toNat)
      (calculate_level_from_xp
        (((max 0 ((((max 0 ((u.xp : Int) + -(penalty : Int))).toNat : Nat) : Int)
            + (reward : Int))).toNat : Nat) : Int))
      _
      hget hsent hm (by simp) (by simp) (by simp) rfl rfl rfl
  refine ⟨by rw [hout], by rw [hout], ?_, ?_, ?_⟩ <;> rw [hu] <;> rfl

/-- Witness for C3 amended at the concrete stale scenario. -/
theorem claim_C3_amended_witness :
    (handle_joy_sticker 25 50 stale_state 1 10).2.missed_yesterday = true ∧
    (handle_joy_sticker 25 50 stale_state 1 10).2.double_submission = false ∧
    (get_user (handle_joy_sticker 25 50 stale_state 1 10).1.users 1).map User.streak
      = some ({ gap_user with streak := 5, last_joy_sent := some 12 }.streak + 1) ∧
    (get_user (handle_joy_sticker 25 50 stale_state 1 10).1.users 1).map User.last_joy_sent
      = some (some 10) ∧
    (get_user (handle_joy_sticker 25 50 stale_state 1 10).1.users 1).map User.xp
      = some ((max 0 ((((max 0
          (({ gap_user with streak := 5, last_joy_sent := some 12 } : User).xp
            + -(25 : Int))).toNat : Nat) : Int) + (50 : Int))).toNat) :=
  claim_C3_amended 25 50 stale_state 1 10 12
    { gap_user with streak := 5, last_joy_sent := some 12 }
    (by decide) (by decide) rfl (by decide)

/-- Claim C4: a second qualifying event on a day already in the ledger resets
the streak to 0, changes no experience, and leaves exactly one ledger row for
(user, today) — the event is not re-registered. -/
theorem claim_C4_double_submission (penalty reward : Nat) (st : BotState) (id : Int)
    (today : Int) (u : User)
    (hget : get_user st.users id = some u)
    (hcount : st.daily_senders.count (id, today) = 1) :
    (handle_joy_sticker penalty reward st id today).2.double_submission = true ∧
    (get_user (handle_joy_sticker penalty reward st id today).1.users id).map User.streak
      = some 0 ∧
    (get_user (handle_joy_sticker penalty reward st id today).1.users id).map User.xp
      = some u.xp ∧
    (handle_joy_sticker penalty reward st id today).1.daily_senders.count (id, today) = 1 := by
  have hsent : check_daily_sender st.daily_senders id today = true := by
    unfold check_daily_sender
    exact List.elem_eq_true_of_mem (List.count_pos_iff.mp (by omega))
  obtain ⟨h1, h2, h3, h4⟩ := handle_joy_double penalty reward st id today u hget hsent
  refine ⟨by rw [h4], ?_, ?_, ?_⟩
  · rw [h1]; rfl
  · rw [h1]; rfl
  · rw [h2]; exact hcount

/-- Witness for C4 at the concrete double-submission scenario. -/
theorem claim_C4_double_submission_witness :
    (handle_joy_sticker 25 50 double_state 1 10).2.double_submission = true ∧
    (get_user (handle_joy_sticker 25 50 double_state 1 10).1.users 1).map User.streak
      = some 0 ∧
    (get_user (handle_joy_sticker 25 50 double_state 1 10).1.users 1).map User.xp
      = some ({ gap_user with streak := 5 } : User).xp ∧
    (handle_joy_sticker 25 50 double_state 1 10).1.daily_senders.count (1, 10) = 1 :=
  claim_C4_double_submission 25 50 double_state 1 10 { gap_user with streak := 5 }
    (by decide) (by decide)

/-- Claim C5: the aggregate streak transition — no-op when the stats already
advanced today, +1 when the last day was yesterday, reset to 1 otherwise with
a break notification exactly when the old value was positive; consequently two
same-day qualifying events, when the last day was yesterday, increment the
aggregate by exactly 1, not 2. -/
theorem claim_C5_aggregate (stats : ServerStats) (today : Int) :
    (stats.last_joy_sent = some today → server_streak_update stats today = (stats, false)) ∧
    (stats.last_joy_sent = some (today - 1) →
       (server_streak_update stats today).1.server_streak = stats.server_streak + 1 ∧
       (server_streak_update stats today).1.last_joy_sent = some today) ∧
    (stats.last_joy_sent ≠ some today → stats.last_joy_sent ≠ some (today - 1) →
       (server_streak_update stats today).1
         = { server_streak := 1, last_joy_sent := some today } ∧
       ((server_streak_update stats today).2 = true ↔ 0 < stats.server_streak)) ∧
    (∀ (penalty reward : Nat) (st : BotState) (id1 id2 : Int),
       st.stats = stats → stats.last_joy_sent = some (today - 1) →
       check_daily_sender st.daily_senders id1 today = false →
       (handle_joy_sticker penalty reward
          (handle_joy_sticker penalty reward st id1 today).1 id2 today).1.stats.server_streak
         = stats.server_streak + 1) := by
  have hne : today - 1 ≠ today := by omega
  refine ⟨?_, ?_, ?_, ?_⟩
  · intro h
    simp [server_streak_update, h]
  · intro h
    simp [server_streak_update, h, hne]
  · intro h h2
    unfold server_streak_update
    have hb : (stats.last_joy_sent == some today) = false := by
      simp [beq_eq_false_iff_ne, h]
    have hb2 : (stats.last_joy_sent == some (today - 1)) = false := by
      simp [beq_eq_false_iff_ne, h2]
    rw [hb, hb2]
    simp
  · intro penalty reward st id1 id2 hst h hsent
    have s1 : (handle_joy_sticker penalty reward st id1 today).1.stats
        = { server_streak := stats.server_streak + 1, last_joy_sent := some today } := by
      rw [handle_joy_stats, if_neg (by simp [hsent])]
      rw [hst] at *
      simp [server_streak_update, h, hne]
    rw [handle_joy_stats]
    by_cases hc : check_daily_sender
        (handle_joy_sticker penalty reward st id1 today).1.daily_senders id2 today
    · rw [if_pos hc, s1]
    · rw [if_neg (by simp [hc]), s1]
      simp [server_streak_update]

/-- Witness for C5: conjunct applications at the concrete gap scenario
(stats streak 4, last day 9, events on day 10 from users 1 and 2). -/
theorem claim_C5_aggregate_witness :
    (server_streak_update { server_streak := 4, last_joy_sent := some 9 } 10).1.server_streak
      = 5 ∧
    (handle_joy_sticker 25 50 (handle_joy_sticker 25 50 gap_state 1 10).1 2 10).1.stats.server_streak
      = 5 :=
  ⟨((claim_C5_aggregate { server_streak := 4, last_joy_sent := some 9 } 10).2.1 (by decide)).1,
   (claim_C5_aggregate { server_streak := 4, last_joy_sent := some 9 } 10).2.2.2
     25 50 gap_state 1 2 rfl (by decide) (by decide)⟩

/-- Counterexample for C9: the damage operation invoked for an absent user does
not create the user — it is a no-op returning nothing, as are healing and the
raw xp write. -/
theorem claim_C9_counterexample :
    damage_user ([] : UserTable) 1 5 = ([], none) ∧
    get_user (damage_user ([] : UserTable) 1 5).1 1 = none ∧
    heal_user ([] : UserTable) 1 5 = ([], none) ∧
    add_xp ([] : UserTable) 1 5 = ([], none) := by
  decide

/-- Claim C9 (amended): the xp-grant, daily-claim and qualifying-event command
flows create an absent user with the defaults before mutating; the damage,
healing and raw xp database operations are instead no-ops returning nothing on
an absent user; administrative reset is a no-op on an absent user. -/
theorem claim_C9_absent_user (tbl : UserTable) (st : BotState) (id : Int)
    (amount damage : Int) (rate penalty reward : Nat) (today : Int)
    (hget : get_user tbl id = none) (hst : get_user st.users id = none) :
    get_user (give_xp tbl id amount).1 id
      = some { default_user with
               xp := (max 0 amount).toNat,
               level := calculate_level_from_xp (((max 0 amount).toNat : Nat) : Int),
               max_hp := if calculate_level_from_xp (((max 0 amount).toNat : Nat) : Int) ≠ 1
                         then calculate_max_hp
                           (calculate_level_from_xp (((max 0 amount).toNat : Nat) : Int)) none
                         else 100 } ∧
    (give_xp tbl id amount).2.isSome = true ∧
    get_user (claim_coins rate tbl id today).1 id
      = some { default_user with coins := (rate : Int), last_coin_claim := some today } ∧
    (get_user (handle_joy_sticker penalty reward st id today).1.users id).isSome = true ∧
    damage_user tbl id damage = (tbl, none) ∧
    heal_user tbl id damage = (tbl, none) ∧
    add_xp tbl id amount = (tbl, none) ∧
    reset_user tbl id = tbl := by
  have hnotin : ∀ p ∈ tbl, ¬ (p.1 == id) = true := by
    intro p hp hbeq
    have : List.find? (fun q => q.1 == id) tbl ≠ none := by
      intro hfind
      exact absurd hbeq (by simpa using List.find?_eq_none.mp hfind p hp)
    apply this
    unfold get_user at hget
    cases hfind : List.find? (fun q => q.1 == id) tbl with
    | none => rfl
    | some q => rw [hfind] at hget; simp at hget
  refine ⟨?_, ?_, ?_, ?_, ?_, ?_, ?_, ?_⟩
  · unfold give_xp
    rw [get_or_create_of_none hget]
    have hgc := get_user_create_self tbl id
    simp only [add_xp, hgc]
    rw [get_user_modify_self, hgc]
    simp [default_user]
  · unfold give_xp
    rw [get_or_create_of_none hget]
    have hgc := get_user_create_self tbl id
    simp only [add_xp, hgc]
    rfl
  · unfold claim_coins
    rw [get_or_create_of_none hget]
    have hgc := get_user_create_self tbl id
    have hcond : (default_user.last_coin_claim == some today) = false := rfl
    simp only [hcond, Bool.false_eq_true, if_false]
    rw [get_user_modify_self, hgc]
    simp [default_user]
  · rw [handle_joy_absent penalty reward st id today hst]
    by_cases hc : check_daily_sender st.daily_senders id today
    · have := handle_joy_double penalty reward
        { st with users := (id, default_user) :: st.users } id today default_user
        (get_user_create_self st.users id) hc
      rw [this.1]
      rfl
    · have := handle_joy_no_double penalty reward
        { st with users := (id, default_user) :: st.users } id today default_user
        (match default_user.last_joy_sent with
         | some last => !(last == today - 1) && !(last == today)
         | none => false)
        _ _ _ _ _ _
        (get_user_create_self st.users id) (by simpa using hc) rfl rfl rfl rfl rfl rfl rfl
      rw [this.1]
      rfl
  · simp [damage_user, hget]
  · simp [heal_user, hget]
  · simp [add_xp, hget]
  · unfold reset_user
    rw [List.filter_eq_self.mpr]
    intro p hp
    simpa using hnotin p hp

/-- Witness for C9 amended: the empty table and empty state with user id 1. -/
theorem claim_C9_absent_user_witness :
    get_user (claim_coins 3 ([] : UserTable) 1 10).1 1
      = some { default_user with coins := (3 : Int), last_coin_claim := some 10 } ∧
    damage_user ([] : UserTable) 1 7 = ([], none) ∧
    reset_user ([] : UserTable) 1 = [] :=
  ⟨(claim_C9_absent_user [] empty_state 1 5 7 3 25 50 10 rfl rfl).2.2.1,
   (claim_C9_absent_user [] empty_state 1 5 7 3 25 50 10 rfl rfl).2.2.2.2.1,
   (claim_C9_absent_user [] empty_state 1 5 7 3 25 50 10 rfl rfl).2.2.2.2.2.2.2⟩


end Joyus
